import Mathlib

/-!
Verification of the crowd-density estimation core and its web boundary.

The `crowd_ai` inference pipeline (engine postprocessing, classification,
smoothing, calibration) ships in this repository only as documentation
(`crowd_ai/README.md`); the definitions below for that part are therefore
modelled from the specification text.  The TypeScript boundary
(`src/app/actions/countCrowd.ts` and the `CrowdCounter` client component)
is present in full and is embedded directly from the source.

Numeric values are modelled with `ℚ`: the spec states its numeric claims
"within floating-point tolerance", and the exact-arithmetic model captures
the intended algebra.
-/

namespace Temple

/-- Modelled from the spec: the five-level internal classification scale
`{FREE_FLOW, LOW, MEDIUM, HIGH, CRITICAL}` (spec §6, README density-levels
table). -/
inductive DensityLevel where
  | FREE_FLOW
  | LOW
  | MEDIUM
  | HIGH
  | CRITICAL
deriving DecidableEq, Repr

/-- Rank of a level in the ordered enum (spec §3: "classified level
(ordered enum)"). -/
def DensityLevel.rank : DensityLevel → ℕ
  | .FREE_FLOW => 0
  | .LOW => 1
  | .MEDIUM => 2
  | .HIGH => 3
  | .CRITICAL => 4

/-- Modelled from the spec (§4.5 step 6): classify a density against an
ordered threshold table, "scanned from the lowest breakpoint upward; the
classification is the label of the first breakpoint the value does not
exceed, or the highest label if it exceeds all".  An empty table cannot
arise (a malformed table is a ConfigurationError, spec §7); we return
`FREE_FLOW` in that unreachable case. -/
def classify (d : ℚ) : List (DensityLevel × ℚ) → DensityLevel
  | [] => DensityLevel.FREE_FLOW
  | [(l, _)] => l
  | (l, b) :: e :: rest => if d ≤ b then l else classify d (e :: rest)

/-- The default threshold table of `EngineConfig.density_thresholds`
(README lines 244-250): LOW 0.5, MEDIUM 1.5, HIGH 3.0, CRITICAL 5.0. -/
def defaultThresholds : List (DensityLevel × ℚ) :=
  [(DensityLevel.LOW, 1/2), (DensityLevel.MEDIUM, 3/2),
   (DensityLevel.HIGH, 3), (DensityLevel.CRITICAL, 5)]

/-- Modelled from the spec (§4.5 step 3): clamp negative density-map cells
to zero.  A density map is modelled as its list of cell values. -/
def clampCells (cells : List ℚ) : List ℚ :=
  cells.map (fun x => max x 0)

/-- Modelled from the spec: the raw count is the sum of the clamped cells. -/
def rawCount (cells : List ℚ) : ℚ :=
  (clampCells cells).sum

/-- Modelled from the spec (§3 EngineConfig, README engine configuration):
the configuration fields that drive postprocessing.  Model variant, weights
path, scale factor and device flags only select the network and are not
needed by the postprocessing claims. -/
structure EngineConfig where
  area_sqm : ℚ
  density_thresholds : List (DensityLevel × ℚ)
  enable_smoothing : Bool
  smoothing_window : ℕ

/-- Modelled from the spec (§4.5 step 4): push a raw count into the bounded
FIFO, dropping the oldest entry once the window is full.  The FIFO is kept
newest-first. -/
def pushCount (N : ℕ) (fifo : List ℚ) (r : ℚ) : List ℚ :=
  (r :: fifo).take N

/-- Arithmetic mean of the FIFO contents (spec §4.5 step 4). -/
def fifoMean (fifo : List ℚ) : ℚ :=
  fifo.sum / (fifo.length : ℚ)

/-- Modelled from the spec (§3 InferenceResult, README output data). -/
structure InferenceResult where
  raw_count : ℚ
  crowd_count : ℚ
  density_map : List ℚ
  density_per_sqm : ℚ
  density_level : DensityLevel

/-- Modelled from the spec (§4.5 steps 3-6): one `process` call, given the
density model output `cells` for the frame and the engine's smoothing FIFO.
Clamp and sum, optionally smooth, divide by the configured area, classify.
Returns the result together with the updated FIFO. -/
def processStep (cfg : EngineConfig) (fifo : List ℚ) (cells : List ℚ) :
    InferenceResult × List ℚ :=
  let dmap := clampCells cells
  let raw := dmap.sum
  let fifo' := if cfg.enable_smoothing then pushCount cfg.smoothing_window fifo raw else fifo
  let reported := if cfg.enable_smoothing then fifoMean fifo' else raw
  let d := reported / cfg.area_sqm
  (⟨raw, reported, dmap, d, classify d cfg.density_thresholds⟩, fifo')

/-- Run the engine over a sequence of frames (each given by its model
output cells), threading the smoothing FIFO; returns all results in call
order. -/
def runEngine (cfg : EngineConfig) (fifo : List ℚ) : List (List ℚ) → List InferenceResult
  | [] => []
  | cells :: rest =>
      (processStep cfg fifo cells).1 :: runEngine cfg (processStep cfg fifo cells).2 rest

/-- An engine configuration for the README worked scenarios: given area,
default thresholds, smoothing off. -/
def basicConfig (a : ℚ) : EngineConfig :=
  ⟨a, defaultThresholds, false, 5⟩

/-- C1: for every frame analysis with a strictly positive area the reported
density times the area gives back the reported count (density = count/area),
and the two README scenarios hold: count 75 over 100 m² gives density 3/4
and level MEDIUM; count 60 over 10 m² gives density 6 and level CRITICAL. -/
theorem C1_density_formula_and_levels :
    (∀ (cfg : EngineConfig) (fifo cells : List ℚ), 0 < cfg.area_sqm →
      (processStep cfg fifo cells).1.density_per_sqm * cfg.area_sqm
        = (processStep cfg fifo cells).1.crowd_count) ∧
    (processStep (basicConfig 100) [] [75]).1.density_per_sqm = 3/4 ∧
    (processStep (basicConfig 100) [] [75]).1.density_level = DensityLevel.MEDIUM ∧
    (processStep (basicConfig 10) [] [60]).1.density_per_sqm = 6 ∧
    (processStep (basicConfig 10) [] [60]).1.density_level = DensityLevel.CRITICAL := by
  refine ⟨fun cfg fifo cells h => ?_, ?_, ?_, ?_, ?_⟩
  · simp only [processStep]
    exact div_mul_cancel₀ _ (ne_of_gt h)
  · norm_num [processStep, basicConfig, clampCells, rawCount]
  · norm_num [processStep, basicConfig, clampCells, rawCount, classify, defaultThresholds]
  · norm_num [processStep, basicConfig, clampCells, rawCount]
  · norm_num [processStep, basicConfig, clampCells, rawCount, classify, defaultThresholds]

/-- Witness for C1 at a concrete configuration. -/
theorem C1_density_formula_and_levels_witness :
    0 < (basicConfig 100).area_sqm ∧
    (processStep (basicConfig 100) [] [75]).1.density_per_sqm * (basicConfig 100).area_sqm
      = (processStep (basicConfig 100) [] [75]).1.crowd_count :=
  ⟨by norm_num [basicConfig],
   C1_density_formula_and_levels.1 (basicConfig 100) [] [75] (by norm_num [basicConfig])⟩

/-- C3: the density map returned by `process` has only non-negative cells
(negative model outputs are clamped to zero), hence a non-negative sum, and
the raw count is exactly that sum, so it is never negative. -/
theorem C3_density_map_nonneg (cfg : EngineConfig) (fifo cells : List ℚ) :
    (∀ x ∈ (processStep cfg fifo cells).1.density_map, 0 ≤ x) ∧
    0 ≤ (processStep cfg fifo cells).1.density_map.sum ∧
    (processStep cfg fifo cells).1.raw_count
      = (processStep cfg fifo cells).1.density_map.sum ∧
    0 ≤ (processStep cfg fifo cells).1.raw_count := by
  have hmem : ∀ x ∈ (processStep cfg fifo cells).1.density_map, 0 ≤ x := by
    intro x hx
    simp only [processStep, clampCells, List.mem_map] at hx
    obtain ⟨y, _, rfl⟩ := hx
    exact le_max_right y 0
  have hsum : 0 ≤ (processStep cfg fifo cells).1.density_map.sum :=
    List.sum_nonneg hmem
  exact ⟨hmem, hsum, rfl, hsum⟩

/-- Witness for C3 at a concrete frame with a negative model cell. -/
theorem C3_density_map_nonneg_witness :
    0 ≤ (0:ℚ) ∧ 0 ≤ (processStep (basicConfig 100) [] [-5, 3]).1.density_map.sum :=
  ⟨(C3_density_map_nonneg (basicConfig 100) [] [-5, 3]).1 0
      (by norm_num [processStep, clampCells]),
   (C3_density_map_nonneg (basicConfig 100) [] [-5, 3]).2.1⟩

/-- The label chosen by `classify` is drawn from the table's labels. -/
theorem classify_mem_fst (d : ℚ) :
    ∀ table : List (DensityLevel × ℚ), table ≠ [] →
      classify d table ∈ table.map Prod.fst := by
  intro table
  induction table with
  | nil => intro h; exact absurd rfl h
  | cons hd tl ih =>
    intro _
    match tl, ih with
    | [], _ => simp [classify]
    | e :: rest, ih =>
      by_cases hle : d ≤ hd.2
      · simp [classify, hle]
      · have := ih (by simp)
        simp only [classify, hle, if_false, List.map_cons, List.mem_cons]
        right
        simpa using this

/-- `classify` is monotone in the density when the table's labels appear in
ascending rank order. -/
theorem classify_rank_mono (d1 d2 : ℚ) (hd : d1 ≤ d2) :
    ∀ table : List (DensityLevel × ℚ),
      table.Pairwise (fun a b => a.1.rank ≤ b.1.rank) →
      (classify d1 table).rank ≤ (classify d2 table).rank := by
  intro table
  induction table with
  | nil => intro _; exact le_refl _
  | cons hd' tl ih =>
    intro hp
    match tl, ih, hp with
    | [], _, _ => exact le_refl _
    | e :: rest, ih, hp =>
      rw [List.pairwise_cons] at hp
      by_cases h2 : d2 ≤ hd'.2
      · have h1 : d1 ≤ hd'.2 := le_trans hd h2
        simp [classify, h1, h2]
      · by_cases h1 : d1 ≤ hd'.2
        · simp only [classify, h1, h2, if_true, if_false]
          have hmem := classify_mem_fst d2 (e :: rest) (by simp)
          simp only [List.mem_map] at hmem
          obtain ⟨p, hpmem, hpeq⟩ := hmem
          rw [← hpeq]
          exact hp.1 p hpmem
        · simp only [classify, h1, h2, if_false]
          exact ih hp.2

/-- `classify` returns the label of the first breakpoint the density does
not exceed, or the last (highest) label when it exceeds all breakpoints. -/
theorem classify_eq_find (d : ℚ) :
    ∀ (table : List (DensityLevel × ℚ)) (hne : table ≠ []),
      classify d table
        = ((table.find? (fun e => decide (d ≤ e.2))).getD (table.getLast hne)).1 := by
  intro table
  induction table with
  | nil => intro h; exact absurd rfl h
  | cons hd tl ih =>
    intro hne
    match tl, ih with
    | [], _ =>
      by_cases hle : d ≤ hd.2 <;> simp [classify, List.find?, hle]
    | e :: rest, ih =>
      by_cases hle : d ≤ hd.2
      · simp [classify, List.find?, hle]
      · have hlast : (hd :: e :: rest).getLast hne = (e :: rest).getLast (by simp) :=
          List.getLast_cons (by simp)
        have hfind : List.find? (fun x => decide (d ≤ x.2)) (hd :: e :: rest)
            = List.find? (fun x => decide (d ≤ x.2)) (e :: rest) :=
          List.find?_cons_of_neg _ (by simpa using hle)
        simp only [classify, hle, if_false]
        rw [hfind, hlast]
        exact ih (by simp)

/-- C4: for a fixed ascending threshold table (breakpoints ascending and
labels in ascending rank order), classification never decreases in rank as
density grows, and the assigned level is the label of the first breakpoint
the density does not exceed, defaulting to the last (highest) label. -/
theorem C4_classification_monotone (table : List (DensityLevel × ℚ)) (hne : table ≠ [])
    (hrank : table.Pairwise (fun a b => a.1.rank ≤ b.1.rank))
    (hbrk : table.Pairwise (fun a b => a.2 ≤ b.2))
    (d1 d2 : ℚ) (hd : d1 ≤ d2) :
    (classify d1 table).rank ≤ (classify d2 table).rank ∧
    classify d1 table
      = ((table.find? (fun e => decide (d1 ≤ e.2))).getD (table.getLast hne)).1 :=
  ⟨classify_rank_mono d1 d2 hd table hrank, classify_eq_find d1 table hne⟩

/-- Witness for C4 on the default threshold table at densities 2/5 and 6. -/
theorem C4_classification_monotone_witness :
    (classify (2/5) defaultThresholds).rank ≤ (classify 6 defaultThresholds).rank ∧
    classify (2/5) defaultThresholds
      = ((defaultThresholds.find? (fun e => decide ((2:ℚ)/5 ≤ e.2))).getD
          (defaultThresholds.getLast (by simp [defaultThresholds]))).1 :=
  C4_classification_monotone defaultThresholds (by simp [defaultThresholds])
    (by simp [defaultThresholds, DensityLevel.rank])
    (by norm_num [defaultThresholds])
    (2/5) 6 (by norm_num)

/-- Taking a window of size `N` absorbs an earlier truncation of the
appended tail to the same window size. -/
theorem take_app_take (N : ℕ) (a b : List ℚ) :
    (a ++ b.take N).take N = (a ++ b).take N := by
  rw [List.take_append_eq_append_take, List.take_append_eq_append_take, List.take_take,
    Nat.min_eq_left (Nat.sub_le _ _)]

/-- The engine produces one result per frame. -/
theorem runEngine_length (cfg : EngineConfig) :
    ∀ (frames : List (List ℚ)) (fifo : List ℚ),
      (runEngine cfg fifo frames).length = frames.length := by
  intro frames
  induction frames with
  | nil => intro fifo; rfl
  | cons cells rest ih => intro fifo; simp [runEngine, ih]

/-- With smoothing enabled, the reported count of the `k`-th result is the
mean of the window-truncated history: the raw counts of the first `k+1`
frames (newest first) extended by the initial FIFO, cut to the window. -/
theorem runEngine_crowd_count (cfg : EngineConfig) (hs : cfg.enable_smoothing = true) :
    ∀ (frames : List (List ℚ)) (fifo : List ℚ) (k : ℕ)
      (hk : k < (runEngine cfg fifo frames).length),
      ((runEngine cfg fifo frames).get ⟨k, hk⟩).crowd_count
        = fifoMean (((((frames.take (k+1)).map rawCount).reverse) ++ fifo).take
            cfg.smoothing_window) := by
  intro frames
  induction frames with
  | nil => intro fifo k hk; simp [runEngine] at hk
  | cons cells rest ih =>
    intro fifo k hk
    match k with
    | 0 => simp [runEngine, processStep, hs, pushCount, rawCount]
    | Nat.succ k =>
      have hk' : k < (runEngine cfg (processStep cfg fifo cells).2 rest).length := by
        simpa [runEngine] using hk
      have hstep : ((runEngine cfg fifo (cells :: rest)).get ⟨k + 1, hk⟩).crowd_count
          = ((runEngine cfg (processStep cfg fifo cells).2 rest).get ⟨k, hk'⟩).crowd_count := by
        simp [runEngine]
      rw [hstep, ih]
      have hfifo : (processStep cfg fifo cells).2
          = (rawCount cells :: fifo).take cfg.smoothing_window := by
        simp [processStep, hs, pushCount, rawCount]
      rw [hfifo, take_app_take]
      congr 1
      simp [List.take_cons, List.append_assoc]

/-- The last `N` raw counts seen so far (all of them while fewer than `N`
have been seen). -/
def lastWindow (N : ℕ) (raws : List ℚ) : List ℚ :=
  raws.drop (raws.length - N)

/-- C2: with smoothing enabled and window `N > 0`, the count reported by the
`k`-th `process` call is the arithmetic mean of the last `min (k+1) N` raw
counts — all raw counts seen so far while fewer than `N` exist — and the
window is never empty, so no division by zero occurs on the first call. -/
theorem C2_smoothing_reports_mean (cfg : EngineConfig) (hs : cfg.enable_smoothing = true)
    (hN : 0 < cfg.smoothing_window) (frames : List (List ℚ)) (k : ℕ)
    (hk : k < (runEngine cfg [] frames).length) :
    (lastWindow cfg.smoothing_window ((frames.take (k+1)).map rawCount)).length
        = min (k+1) cfg.smoothing_window ∧
    0 < (lastWindow cfg.smoothing_window ((frames.take (k+1)).map rawCount)).length ∧
    ((runEngine cfg [] frames).get ⟨k, hk⟩).crowd_count
      = (lastWindow cfg.smoothing_window ((frames.take (k+1)).map rawCount)).sum
        / ((lastWindow cfg.smoothing_window ((frames.take (k+1)).map rawCount)).length : ℚ) := by
  have hkf : k < frames.length := by rwa [runEngine_length] at hk
  have hraws : ((frames.take (k+1)).map rawCount).length = k + 1 := by
    simp [List.length_take]
    omega
  have hlen : (lastWindow cfg.smoothing_window ((frames.take (k+1)).map rawCount)).length
      = min (k+1) cfg.smoothing_window := by
    simp [lastWindow, hraws]
    omega
  refine ⟨hlen, ?_, ?_⟩
  · rw [hlen]; omega
  · have hmain := runEngine_crowd_count cfg hs frames [] k hk
    rw [List.append_nil] at hmain
    have hrev : ((frames.take (k+1)).map rawCount).reverse.take cfg.smoothing_window
        = (lastWindow cfg.smoothing_window ((frames.take (k+1)).map rawCount)).reverse := by
      rw [lastWindow, ← List.rtake, ← List.reverse_reverse
        (((frames.take (k+1)).map rawCount).reverse.take cfg.smoothing_window)]
      congr 1
      exact (List.rtake_eq_reverse_take_reverse _ _).symm
    rw [hmain, hrev, fifoMean]
    simp [List.sum_reverse]

/-- A concrete smoothing configuration: window 2, smoothing on. -/
def smoothCfg : EngineConfig := ⟨100, defaultThresholds, true, 2⟩

/-- Three demo frames whose raw counts are 1, 3, 5. -/
def demoFrames : List (List ℚ) := [[1], [3], [5]]

/-- Witness for C2: after the third call with window 2 the reported count is
the mean of the last two raw counts. -/
theorem C2_smoothing_reports_mean_witness :
    (lastWindow smoothCfg.smoothing_window ((demoFrames.take (2+1)).map rawCount)).length
        = min (2+1) smoothCfg.smoothing_window ∧
    0 < (lastWindow smoothCfg.smoothing_window ((demoFrames.take (2+1)).map rawCount)).length ∧
    ((runEngine smoothCfg [] demoFrames).get
        ⟨2, by rw [runEngine_length]; norm_num [demoFrames]⟩).crowd_count
      = (lastWindow smoothCfg.smoothing_window ((demoFrames.take (2+1)).map rawCount)).sum
        / ((lastWindow smoothCfg.smoothing_window
            ((demoFrames.take (2+1)).map rawCount)).length : ℚ) :=
  C2_smoothing_reports_mean smoothCfg rfl (by norm_num [smoothCfg]) demoFrames 2
    (by rw [runEngine_length]; norm_num [demoFrames])

/-- How a calibration result was derived (spec §3 CalibrationResult). -/
inductive CalibrationMethod where
  | direct
  | reference_distance
  | geometric
deriving DecidableEq, Repr

/-- Modelled from the spec: a calibration yields a total area in square
meters plus the method used (the recorded raw inputs are traceability data
and are omitted). -/
structure CalibrationResult where
  total_area_sqm : ℚ
  method : CalibrationMethod
deriving DecidableEq, Repr

/-- Calibration failure reasons (spec §7 taxonomy item 5). -/
inductive CalibrationError where
  | nonPositiveReferencePixels
  | tiltAtOrBeyond90
  | nonPositiveHeight
deriving DecidableEq, Repr

/-- Modelled from the spec (§4.4 reference-distance): meters-per-pixel is
the known real distance over its pixel span, and the frame area is
(width_px × height_px) × (meters-per-pixel)²; a non-positive reference
pixel distance is an error, not a silent division. -/
def calibrate_from_reference (frame_width frame_height reference_distance_pixels
    reference_distance_meters : ℚ) : Except CalibrationError CalibrationResult :=
  if reference_distance_pixels ≤ 0 then
    Except.error CalibrationError.nonPositiveReferencePixels
  else
    let meters_per_pixel := reference_distance_meters / reference_distance_pixels
    Except.ok ⟨frame_width * frame_height * (meters_per_pixel * meters_per_pixel),
      CalibrationMethod.reference_distance⟩

/-- C5: reference-distance calibration computes
(width × height) × (meters/pixels)² and is scale-invariant: doubling the
reference pixel distance together with both frame dimensions leaves the
computed total area unchanged. -/
theorem C5_reference_calibration_scale_invariant (w h px m : ℚ)
    (hw : 0 < w) (hh : 0 < h) (hpx : 0 < px) (hm : 0 < m) :
    calibrate_from_reference w h px m
      = Except.ok ⟨w * h * ((m / px) * (m / px)), CalibrationMethod.reference_distance⟩ ∧
    calibrate_from_reference (2*w) (2*h) (2*px) m = calibrate_from_reference w h px m := by
  have hpx2 : 0 < 2 * px := by linarith
  constructor
  · simp [calibrate_from_reference, not_le.mpr hpx]
  · simp only [calibrate_from_reference, not_le.mpr hpx, not_le.mpr hpx2, if_false]
    have hne : px ≠ 0 := ne_of_gt hpx
    congr 1
    congr 1
    field_simp
    ring

/-- Witness for C5 at the README worked example (1920×1080 frame, 150 px
spanning 1 m). -/
theorem C5_reference_calibration_scale_invariant_witness :
    calibrate_from_reference 1920 1080 150 1
      = Except.ok ⟨1920 * 1080 * (((1:ℚ) / 150) * ((1:ℚ) / 150)),
          CalibrationMethod.reference_distance⟩ ∧
    calibrate_from_reference (2*1920) (2*1080) (2*150) 1
      = calibrate_from_reference 1920 1080 150 1 :=
  C5_reference_calibration_scale_invariant 1920 1080 150 1
    (by norm_num) (by norm_num) (by norm_num) (by norm_num)

/-- Modelled from the spec (§4.4 geometric): the visible ground footprint is
derived from camera height, downward tilt and horizontal field of view via
trigonometric projection (depth proportional to height / tan(tilt), width
from the field-of-view cone), with tilt at or beyond 90° and non-positive
heights rejected.  The tangent function is passed as a parameter: the spec
fixes only the guards and the height / tan(tilt) shape, and the claims
settled here depend only on the guards. -/
def estimate_area_from_height (tan : ℚ → ℚ) (frame_width frame_height camera_height_m
    camera_tilt_deg horizontal_fov_deg : ℚ) : Except CalibrationError CalibrationResult :=
  if 90 ≤ camera_tilt_deg then
    Except.error CalibrationError.tiltAtOrBeyond90
  else if camera_height_m ≤ 0 then
    Except.error CalibrationError.nonPositiveHeight
  else
    let ground_depth := camera_height_m / tan camera_tilt_deg
    let visible_width := 2 * ground_depth * tan (horizontal_fov_deg / 2)
    Except.ok ⟨visible_width * ground_depth, CalibrationMethod.geometric⟩

/-- C6: geometric calibration with tilt ≥ 90° or height ≤ 0 returns a
CalibrationError — never a numeric result (in this exact-arithmetic model
no NaN or infinity exists; the claim is that no `ok` value is produced). -/
theorem C6_geometric_calibration_rejects (tan : ℚ → ℚ) (w h hm tilt fov : ℚ)
    (hbad : 90 ≤ tilt ∨ hm ≤ 0) :
    (estimate_area_from_height tan w h hm tilt fov
        = Except.error CalibrationError.tiltAtOrBeyond90 ∨
      estimate_area_from_height tan w h hm tilt fov
        = Except.error CalibrationError.nonPositiveHeight) ∧
    ∀ r : CalibrationResult,
      estimate_area_from_height tan w h hm tilt fov ≠ Except.ok r := by
  by_cases htilt : 90 ≤ tilt
  · refine ⟨Or.inl ?_, fun r hr => ?_⟩
    · simp [estimate_area_from_height, htilt]
    · simp [estimate_area_from_height, htilt] at hr
  · have hh : hm ≤ 0 := hbad.resolve_left htilt
    refine ⟨Or.inr ?_, fun r hr => ?_⟩
    · simp [estimate_area_from_height, htilt, hh]
    · simp [estimate_area_from_height, htilt, hh] at hr

/-- Witness for C6 at tilt exactly 90° with a generic tangent function. -/
theorem C6_geometric_calibration_rejects_witness :
    estimate_area_from_height (fun _ => 1) 1920 1080 5 90 70
      ≠ Except.ok ⟨0, CalibrationMethod.geometric⟩ :=
  (C6_geometric_calibration_rejects (fun _ => 1) 1920 1080 5 90 70
    (Or.inl le_rfl)).2 ⟨0, CalibrationMethod.geometric⟩

/-! ## The TypeScript boundary (`src/app/actions/countCrowd.ts` and the
`CrowdCounter` client component), embedded from the source.

Network effects are shallow-embedded by passing the outcome of the single
`fetch` to the ML API as a function argument; the remaining control flow is
translated statement by statement. -/

/-- Wire risk vocabulary (`countCrowd.ts` line 15). -/
inductive RiskLevel where
  | Low
  | Medium
  | High
deriving DecidableEq, Repr

/-- `CrowdAnalysisResult` (`countCrowd.ts` lines 13-19): the output type
matching the ML API response. -/
structure CrowdAnalysisResult where
  crowdCount : ℚ
  riskLevel : RiskLevel
  analysis : String
  densityPerSqm : Option ℚ
  processingTimeMs : Option ℚ
deriving DecidableEq, Repr

/-- `State` (`countCrowd.ts` lines 21-24). -/
structure State where
  message : String
  data : Option CrowdAnalysisResult
deriving DecidableEq, Repr

/-- The JSON body sent to the `/analyze` endpoint: the base64 image data
URI and the area in square meters (`countCrowd.ts` lines 45-48,
`CrowdCounter` line 223). -/
structure AnalyzeRequest where
  photoDataUri : String
  area_sqm : ℚ
deriving DecidableEq, Repr

/-- Possible outcomes of the `fetch` to the ML API as seen by
`getCrowdCount`: a parsed OK response, a non-OK response (with the parsed
`detail` field, `none` when the error body fails to parse), a thrown
`Error` with a message, or a thrown non-`Error` value. -/
inductive FetchOutcome where
  | ok (result : CrowdAnalysisResult)
  | httpError (status : Nat) (detail : Option String)
  | throwsError (message : String)
  | throwsNonError
deriving DecidableEq, Repr

/-- Boolean list-prefix test, the scanning step of
`String.prototype.includes`. -/
def isPrefixB : List Char → List Char → Bool
  | [], _ => true
  | _ :: _, [] => false
  | a :: as, b :: bs => a == b && isPrefixB as bs

/-- `haystack.includes(needle)` on character lists. -/
def containsSub (pat : List Char) : List Char → Bool
  | [] => isPrefixB pat []
  | c :: rest => isPrefixB pat (c :: rest) || containsSub pat rest

/-- `s.includes(pat)` on strings. -/
def containsStr (s pat : String) : Bool :=
  containsSub pat.data s.data

/-- `s.toLowerCase()` (the messages involved are ASCII). -/
def lowerStr (s : String) : String :=
  ⟨s.data.map Char.toLower⟩

/-- Message for invalid form data (`countCrowd.ts` line 33). -/
def invalidFormMessage : String := "Invalid form data. Image is missing."

/-- Message on success (`countCrowd.ts` line 59, `CrowdCounter` line 229). -/
def successMessage : String := "Analysis successful."

/-- Guidance when the ML server is unreachable (`countCrowd.ts` line 76). -/
def serverDownMessage : String :=
  "Analysis failed: ML server is not running. Please start the Python API server with: python -m crowd_ai.api_server"

/-- Guidance when no ML models are available (`countCrowd.ts` line 83). -/
def modelsMissingMessage : String :=
  "Analysis failed: ML models not loaded. Please install PyTorch and dependencies: pip install -r crowd_ai/requirements.txt"

/-- `serverDownMessage` stripped of the `Analysis failed: ` prefix. -/
def serverDownDetail : String :=
  "ML server is not running. Please start the Python API server with: python -m crowd_ai.api_server"

/-- `modelsMissingMessage` stripped of the `Analysis failed: ` prefix. -/
def modelsMissingDetail : String :=
  "ML models not loaded. Please install PyTorch and dependencies: pip install -r crowd_ai/requirements.txt"

/-- The `errorMessage` computed in the catch block (`countCrowd.ts`
lines 52-53 and 70): a non-OK response throws an `Error` whose message is
`errorData.detail` or, when `detail` is falsy (absent or empty), the
fallback `ML API error: status`; a thrown non-`Error` yields the
unknown-error text.
An OK outcome never reaches the catch block. -/
def errorMessageOf : FetchOutcome → String
  | .ok _ => ""
  | .httpError status detail =>
      match detail with
      | some d => if d = "" then "ML API error: " ++ toString status else d
      | none => "ML API error: " ++ toString status
  | .throwsError m => m
  | .throwsNonError => "An unknown error occurred."

/-- The catch block of `getCrowdCount` (`countCrowd.ts` lines 68-89):
lower-case the error message, test for the connection-refused and
model-unavailable markers, otherwise report `Analysis failed: ` plus the
error message. -/
def handleError (errorMessage : String) : State :=
  let lower := lowerStr errorMessage
  if containsStr lower "econnrefused" || containsStr lower "fetch failed" then
    ⟨serverDownMessage, none⟩
  else if containsStr lower "no ml models available" then
    ⟨modelsMissingMessage, none⟩
  else
    ⟨"Analysis failed: " ++ errorMessage, none⟩

/-- The request body `getCrowdCount` posts: the validated photo data URI
with the default 100 m² area (`countCrowd.ts` lines 45-48). -/
def buildAnalyzeRequest (photoDataUri : String) : AnalyzeRequest :=
  ⟨photoDataUri, 100⟩

/-- `getCrowdCount` (`countCrowd.ts` lines 26-90).  `photoDataUri` is the
form field (`none` when absent; the zod schema `min(1)` also rejects the
empty string).  Returns the new `State` together with the request actually
posted to the ML API (`none` when validation failed before any request was
sent). -/
def getCrowdCount (prevState : State) (photoDataUri : Option String)
    (fetch : AnalyzeRequest → FetchOutcome) : State × Option AnalyzeRequest :=
  match photoDataUri with
  | none => (⟨invalidFormMessage, none⟩, none)
  | some p =>
    if p = "" then (⟨invalidFormMessage, none⟩, none)
    else
      match fetch (buildAnalyzeRequest p) with
      | .ok r =>
          (⟨successMessage, some ⟨r.crowdCount, r.riskLevel, r.analysis,
              r.densityPerSqm, r.processingTimeMs⟩⟩, some (buildAnalyzeRequest p))
      | o => (handleError (errorMessageOf o), some (buildAnalyzeRequest p))

/-- Component state of the live `CrowdCounter` relevant to analysis: the
`isPending` flag and the displayed `resultState` (initially
`{message: empty, data: null}`). -/
structure CounterState where
  isPending : Bool
  resultState : State
deriving DecidableEq, Repr

/-- The initial `resultState` of the `CrowdCounter`. -/
def initialState : State := ⟨"", none⟩

/-- Outcome of the direct client-side `fetch` in `handleAnalyze`: an OK
response with a parsed body, a non-OK response (ignored by the client), or
a thrown error. -/
inductive ClientFetchOutcome where
  | ok (result : CrowdAnalysisResult)
  | notOk (status : Nat)
  | throws
deriving DecidableEq, Repr

/-- The request body posted by the live `CrowdCounter` (`CrowdCounter`
line 223): the captured JPEG data URL with a fixed 10 m² area. -/
def crowdCounterRequest (dataUrl : String) : AnalyzeRequest :=
  ⟨dataUrl, 10⟩

/-- `CrowdCounter.handleAnalyze` (`CrowdCounter` lines 196-244).
`videoReady` folds the early-return guards (refs present, video metadata
loaded, non-zero width, 2d context available).  When the guard passes, the
frame is posted; only an OK response replaces `resultState`, a non-OK
response or a thrown error leaves it untouched, and `isPending` is reset. -/
def handleAnalyze (videoReady : Bool) (dataUrl : String) (s : CounterState)
    (fetch : AnalyzeRequest → ClientFetchOutcome) : CounterState :=
  if s.isPending || !videoReady then s
  else
    match fetch (crowdCounterRequest dataUrl) with
    | .ok r =>
        ⟨false, ⟨successMessage, some ⟨r.crowdCount, r.riskLevel, r.analysis,
            r.densityPerSqm, r.processingTimeMs⟩⟩⟩
    | _ => ⟨false, s.resultState⟩

/-- A sample parsed ML API response used by witnesses. -/
def sampleResult : CrowdAnalysisResult :=
  ⟨12, RiskLevel.Medium, "Moderate crowd detected", none, none⟩

/-- Splitting off an equal prefix of two equal strings leaves equal
suffixes. -/
theorem string_append_left_cancel (a b c : String) (h : a ++ b = a ++ c) : b = c := by
  have hd : a.data ++ b.data = a.data ++ c.data := by
    have := congrArg String.data h
    simpa using this
  have hbc : b.data = c.data := List.append_cancel_left hd
  cases b
  cases c
  exact congrArg String.mk hbc

/-- The two guidance messages are the failure prefix glued to their
detail texts. -/
theorem guidance_messages_split :
    serverDownMessage = "Analysis failed: " ++ serverDownDetail ∧
    modelsMissingMessage = "Analysis failed: " ++ modelsMissingDetail := by
  constructor <;> decide

/-- C7 counterexample: the error text that is the server-down guidance
minus its prefix triggers neither marker, so it is an "other failure", yet
`getCrowdCount` reports exactly the server-down guidance message — not a
message distinct from it. -/
theorem C7_distinct_messages_counterexample :
    containsStr (lowerStr serverDownDetail) "econnrefused" = false ∧
    containsStr (lowerStr serverDownDetail) "fetch failed" = false ∧
    containsStr (lowerStr serverDownDetail) "no ml models available" = false ∧
    (getCrowdCount ⟨"", none⟩ (some "img")
        (fun _ => FetchOutcome.throwsError serverDownDetail)).1.message
      = serverDownMessage := by
  refine ⟨?_, ?_, ?_, ?_⟩ <;> decide

/-- C7 amended: a connection-refused / fetch-failed error yields the
server-down guidance, a no-models error yields the model-weights guidance,
and every other failure yields `Analysis failed: ` plus the error text,
which differs from both guidance messages unless the error text itself is
one of them stripped of the prefix. -/
theorem C7_error_kinds_amended (prev : State) (p : String) (hp : ¬p = "") (e : String) :
    ((containsStr (lowerStr e) "econnrefused" = true ∨
        containsStr (lowerStr e) "fetch failed" = true) →
      (getCrowdCount prev (some p) (fun _ => FetchOutcome.throwsError e)).1
        = ⟨serverDownMessage, none⟩) ∧
    (containsStr (lowerStr e) "econnrefused" = false →
     containsStr (lowerStr e) "fetch failed" = false →
     containsStr (lowerStr e) "no ml models available" = true →
      (getCrowdCount prev (some p) (fun _ => FetchOutcome.throwsError e)).1
        = ⟨modelsMissingMessage, none⟩) ∧
    (containsStr (lowerStr e) "econnrefused" = false →
     containsStr (lowerStr e) "fetch failed" = false →
     containsStr (lowerStr e) "no ml models available" = false →
      (getCrowdCount prev (some p) (fun _ => FetchOutcome.throwsError e)).1
          = ⟨"Analysis failed: " ++ e, none⟩ ∧
      (¬e = serverDownDetail →
        (getCrowdCount prev (some p) (fun _ => FetchOutcome.throwsError e)).1.message
          ≠ serverDownMessage) ∧
      (¬e = modelsMissingDetail →
        (getCrowdCount prev (some p) (fun _ => FetchOutcome.throwsError e)).1.message
          ≠ modelsMissingMessage)) := by
  refine ⟨fun h1 => ?_, fun h1 h2 h3 => ?_, fun h1 h2 h3 => ⟨?_, fun hne hmsg => ?_, fun hne hmsg => ?_⟩⟩
  · rcases h1 with h1 | h1 <;>
      simp [getCrowdCount, hp, errorMessageOf, handleError, h1]
  · simp [getCrowdCount, hp, errorMessageOf, handleError, h1, h2, h3]
  · simp [getCrowdCount, hp, errorMessageOf, handleError, h1, h2, h3]
  · simp only [getCrowdCount, hp, if_neg, errorMessageOf, handleError, h1, h2, h3,
      Bool.or_self, if_false] at hmsg
    rw [guidance_messages_split.1] at hmsg
    exact hne (string_append_left_cancel _ _ _ hmsg)
  · simp only [getCrowdCount, hp, if_neg, errorMessageOf, handleError, h1, h2, h3,
      Bool.or_self, if_false] at hmsg
    rw [guidance_messages_split.2] at hmsg
    exact hne (string_append_left_cancel _ _ _ hmsg)

/-- Witness for the amended C7: a real connection-refused message yields
the server-down guidance, and a timeout message yields an `Analysis
failed:` message distinct from both guidance texts. -/
theorem C7_error_kinds_amended_witness :
    (getCrowdCount initialState (some "img")
        (fun _ => FetchOutcome.throwsError "connect ECONNREFUSED 127.0.0.1:8000")).1
      = ⟨serverDownMessage, none⟩ ∧
    (getCrowdCount initialState (some "img")
        (fun _ => FetchOutcome.throwsError "Request timeout")).1
      = ⟨"Analysis failed: " ++ "Request timeout", none⟩ ∧
    (getCrowdCount initialState (some "img")
        (fun _ => FetchOutcome.throwsError "Request timeout")).1.message
      ≠ serverDownMessage :=
  ⟨(C7_error_kinds_amended initialState "img" (by decide)
      "connect ECONNREFUSED 127.0.0.1:8000").1 (Or.inl (by decide)),
   ((C7_error_kinds_amended initialState "img" (by decide) "Request timeout").2.2
      (by decide) (by decide) (by decide)).1,
   ((C7_error_kinds_amended initialState "img" (by decide) "Request timeout").2.2
      (by decide) (by decide) (by decide)).2.1 (by decide)⟩

/-- Unfolding of `getCrowdCount` on a validated image when the fetch
succeeds. -/
theorem getCrowdCount_some_ok (prev : State) (p : String)
    (fetch : AnalyzeRequest → FetchOutcome) (r : CrowdAnalysisResult)
    (hp : ¬p = "") (hr : fetch (buildAnalyzeRequest p) = FetchOutcome.ok r) :
    getCrowdCount prev (some p) fetch
      = (⟨successMessage, some ⟨r.crowdCount, r.riskLevel, r.analysis,
          r.densityPerSqm, r.processingTimeMs⟩⟩, some (buildAnalyzeRequest p)) := by
  simp only [getCrowdCount]
  rw [if_neg hp, hr]

/-- Unfolding of `getCrowdCount` on a validated image when the fetch
fails. -/
theorem getCrowdCount_some_err (prev : State) (p : String)
    (fetch : AnalyzeRequest → FetchOutcome) (o : FetchOutcome)
    (hp : ¬p = "") (hf : fetch (buildAnalyzeRequest p) = o)
    (ho : ∀ r, o ≠ FetchOutcome.ok r) :
    getCrowdCount prev (some p) fetch
      = (handleError (errorMessageOf o), some (buildAnalyzeRequest p)) := by
  simp only [getCrowdCount]
  rw [if_neg hp, hf]
  match o, ho with
  | .httpError s d, _ => rfl
  | .throwsError m, _ => rfl
  | .throwsNonError, _ => rfl
  | .ok r, ho => exact absurd rfl (ho r)

/-- The catch block always reports null data. -/
theorem handleError_data (e : String) : (handleError e).data = none := by
  simp only [handleError]
  split
  · rfl
  · split <;> rfl

/-- The catch block always reports a non-empty message. -/
theorem handleError_message_ne (e : String) : (handleError e).message ≠ "" := by
  have hgen : ("Analysis failed: " ++ e) ≠ "" := by
    intro h
    have h2 := congrArg String.length h
    rw [String.length_append] at h2
    have h17 : ("Analysis failed: " : String).length = 17 := by decide
    have h0 : ("" : String).length = 0 := by decide
    omega
  simp only [handleError]
  split
  · decide
  · split
    · decide
    · exact hgen

/-- C8: a successful analysis posts the base64 image with the 100 m² area,
returns the success message with data of exactly the declared shape — the
five `CrowdAnalysisResult` fields, with a risk level drawn from
{Low, Medium, High} — and the live client posts its image with the 10 m²
area. -/
theorem C8_wire_contract_shape (prev : State) (p : String) (hp : ¬p = "")
    (fetch : AnalyzeRequest → FetchOutcome) (r : CrowdAnalysisResult)
    (hr : fetch (buildAnalyzeRequest p) = FetchOutcome.ok r) :
    buildAnalyzeRequest p = ⟨p, 100⟩ ∧
    (getCrowdCount prev (some p) fetch).2 = some ⟨p, 100⟩ ∧
    (getCrowdCount prev (some p) fetch).1
      = ⟨successMessage, some ⟨r.crowdCount, r.riskLevel, r.analysis,
          r.densityPerSqm, r.processingTimeMs⟩⟩ ∧
    (r.riskLevel = RiskLevel.Low ∨ r.riskLevel = RiskLevel.Medium ∨
      r.riskLevel = RiskLevel.High) ∧
    (∀ dataUrl : String, crowdCounterRequest dataUrl = ⟨dataUrl, 10⟩) := by
  refine ⟨rfl, ?_, ?_, ?_, fun _ => rfl⟩
  · rw [getCrowdCount_some_ok prev p fetch r hp hr]
    rfl
  · rw [getCrowdCount_some_ok prev p fetch r hp hr]
  · cases hc : r.riskLevel
    · exact Or.inl rfl
    · exact Or.inr (Or.inl rfl)
    · exact Or.inr (Or.inr rfl)

/-- Witness for C8 at a concrete request and parsed response. -/
theorem C8_wire_contract_shape_witness :
    buildAnalyzeRequest "img" = ⟨"img", 100⟩ ∧
    (getCrowdCount initialState (some "img") (fun _ => FetchOutcome.ok sampleResult)).1
      = ⟨successMessage, some ⟨sampleResult.crowdCount, sampleResult.riskLevel,
          sampleResult.analysis, sampleResult.densityPerSqm,
          sampleResult.processingTimeMs⟩⟩ ∧
    crowdCounterRequest "live" = ⟨"live", 10⟩ :=
  ⟨(C8_wire_contract_shape initialState "img" (by decide)
      (fun _ => FetchOutcome.ok sampleResult) sampleResult rfl).1,
   (C8_wire_contract_shape initialState "img" (by decide)
      (fun _ => FetchOutcome.ok sampleResult) sampleResult rfl).2.2.1,
   (C8_wire_contract_shape initialState "img" (by decide)
      (fun _ => FetchOutcome.ok sampleResult) sampleResult rfl).2.2.2.2 "live"⟩

/-- C9: `getCrowdCount` is a total function of the prior state, the form
field and the fetch outcome.  A missing or empty image yields the invalid
form message with null data and no request is posted; whenever the data is
null the message is non-empty; and non-null data arises only from an OK
fetch outcome on a validated image. -/
theorem C9_getCrowdCount_total (prev : State) (photo : Option String)
    (fetch : AnalyzeRequest → FetchOutcome) :
    getCrowdCount prev none fetch = (⟨invalidFormMessage, none⟩, none) ∧
    getCrowdCount prev (some "") fetch = (⟨invalidFormMessage, none⟩, none) ∧
    ((getCrowdCount prev photo fetch).1.data ≠ none →
      ∃ p r, photo = some p ∧ ¬p = "" ∧
        fetch (buildAnalyzeRequest p) = FetchOutcome.ok r) ∧
    ((getCrowdCount prev photo fetch).1.data = none →
      (getCrowdCount prev photo fetch).1.message ≠ "") := by
  refine ⟨rfl, by simp [getCrowdCount], fun hdata => ?_, fun hdata => ?_⟩
  · match photo with
    | none => exact absurd rfl hdata
    | some p =>
      by_cases hp : p = ""
      · subst hp
        simp [getCrowdCount] at hdata
      · match hf : fetch (buildAnalyzeRequest p) with
        | .ok r => exact ⟨p, r, rfl, hp, hf⟩
        | .httpError status detail =>
            rw [getCrowdCount_some_err prev p fetch _ hp hf (fun r h => by cases h)] at hdata
            exact absurd (handleError_data _) hdata
        | .throwsError m =>
            rw [getCrowdCount_some_err prev p fetch _ hp hf (fun r h => by cases h)] at hdata
            exact absurd (handleError_data _) hdata
        | .throwsNonError =>
            rw [getCrowdCount_some_err prev p fetch _ hp hf (fun r h => by cases h)] at hdata
            exact absurd (handleError_data _) hdata
  · match photo with
    | none => exact (by decide : invalidFormMessage ≠ "")
    | some p =>
      by_cases hp : p = ""
      · subst hp
        simp [getCrowdCount, invalidFormMessage]
      · match hf : fetch (buildAnalyzeRequest p) with
        | .ok r =>
            rw [getCrowdCount_some_ok prev p fetch r hp hf] at hdata
            cases hdata
        | .httpError status detail =>
            rw [getCrowdCount_some_err prev p fetch _ hp hf (fun r h => by cases h)]
            exact handleError_message_ne _
        | .throwsError m =>
            rw [getCrowdCount_some_err prev p fetch _ hp hf (fun r h => by cases h)]
            exact handleError_message_ne _
        | .throwsNonError =>
            rw [getCrowdCount_some_err prev p fetch _ hp hf (fun r h => by cases h)]
            exact handleError_message_ne _

/-- Witness for C9: a missing image short-circuits with the invalid-form
message, its message is non-empty, and a successful fetch is the only way
to obtain non-null data. -/
theorem C9_getCrowdCount_total_witness :
    getCrowdCount initialState none (fun _ => FetchOutcome.throwsNonError)
        = (⟨invalidFormMessage, none⟩, none) ∧
    (getCrowdCount initialState none (fun _ => FetchOutcome.throwsNonError)).1.message ≠ "" ∧
    (∃ p r, (some "img" : Option String) = some p ∧ ¬p = "" ∧
      (fun _ => FetchOutcome.ok sampleResult) (buildAnalyzeRequest p)
        = FetchOutcome.ok r) :=
  ⟨(C9_getCrowdCount_total initialState none (fun _ => FetchOutcome.throwsNonError)).1,
   (C9_getCrowdCount_total initialState none (fun _ => FetchOutcome.throwsNonError)).2.2.2 rfl,
   (C9_getCrowdCount_total initialState (some "img")
      (fun _ => FetchOutcome.ok sampleResult)).2.2.1 (by decide)⟩

/-- C10: in the live analysis loop a failed attempt (thrown fetch or
non-OK response) leaves the displayed `resultState` exactly as it was, and
only an OK response replaces it with the fresh analysis. -/
theorem C10_failed_attempt_keeps_result (videoReady : Bool) (dataUrl : String)
    (s : CounterState) (fetch : AnalyzeRequest → ClientFetchOutcome) :
    ((∀ r, fetch (crowdCounterRequest dataUrl) ≠ ClientFetchOutcome.ok r) →
      (handleAnalyze videoReady dataUrl s fetch).resultState = s.resultState) ∧
    (∀ r, fetch (crowdCounterRequest dataUrl) = ClientFetchOutcome.ok r →
      s.isPending = false → videoReady = true →
      (handleAnalyze videoReady dataUrl s fetch).resultState
        = ⟨successMessage, some ⟨r.crowdCount, r.riskLevel, r.analysis,
            r.densityPerSqm, r.processingTimeMs⟩⟩) := by
  constructor
  · intro hfail
    by_cases hg : (s.isPending || !videoReady) = true
    · simp [handleAnalyze, hg]
    · simp only [handleAnalyze, hg, if_false]
      match hf : fetch (crowdCounterRequest dataUrl) with
      | .ok r => exact absurd hf (hfail r)
      | .notOk status => rfl
      | .throws => rfl
  · intro r hf hpend hvid
    simp [handleAnalyze, hpend, hvid, hf]

/-- Witness for C10: a thrown fetch leaves the initial empty result in
place, and an OK response installs the analysis. -/
theorem C10_failed_attempt_keeps_result_witness :
    (handleAnalyze true "frame" ⟨false, initialState⟩
        (fun _ => ClientFetchOutcome.throws)).resultState = initialState ∧
    (handleAnalyze true "frame" ⟨false, initialState⟩
        (fun _ => ClientFetchOutcome.ok sampleResult)).resultState
      = ⟨successMessage, some ⟨sampleResult.crowdCount, sampleResult.riskLevel,
          sampleResult.analysis, sampleResult.densityPerSqm,
          sampleResult.processingTimeMs⟩⟩ :=
  ⟨(C10_failed_attempt_keeps_result true "frame" ⟨false, initialState⟩
      (fun _ => ClientFetchOutcome.throws)).1
      (fun r h => ClientFetchOutcome.noConfusion h),
   (C10_failed_attempt_keeps_result true "frame" ⟨false, initialState⟩
      (fun _ => ClientFetchOutcome.ok sampleResult)).2 sampleResult rfl rfl rfl⟩

end Temple
